import Mathlib

/-!
Verification of the gen-ai-exchange gateway: a shallow embedding of the
query classifier, the intelligent router with its fallback chains, the
ingestion pipeline coordinator, and the health aggregation logic, with
theorems settling the specified properties.

Sources embedded:
- `backend/orchestrator.py`: `QueryAnalyzer.analyze_query`,
  `IntelligentRouter.select_primary_server`, `get_fallback_servers`,
  `route_query`, and the orchestrator `/health` aggregation.
- `backend/app.py`: the `/ingest` pipeline endpoint and the
  `/summarize_l1` manual trigger.
- `backend/servers/server2.py`: the `/summarize_l1` stage handler's
  dependency check on the L1 artifact.
- `manage_system.py`: `SystemManager.get_system_status` overall health.
-/

namespace GenAI

/-- Query complexity levels for routing decisions
(`QueryComplexity` enum in orchestrator.py). -/
inductive QueryComplexity where
  | simple
  | moderate
  | detailed
  | comprehensive
deriving DecidableEq, Repr

/-- Keyword set `QueryAnalyzer.SIMPLE_KEYWORDS` from orchestrator.py. -/
def SIMPLE_KEYWORDS : List String :=
  ["key points", "bullet", "concise", "short", "brief", "overview",
   "main points", "highlights", "summary", "gist", "essence"]

/-- Keyword set `QueryAnalyzer.MODERATE_KEYWORDS` from orchestrator.py. -/
def MODERATE_KEYWORDS : List String :=
  ["summary", "overview", "brief", "describe", "explain", "what is",
   "tell me about", "give me", "provide", "outline"]

/-- Keyword set `QueryAnalyzer.DETAILED_KEYWORDS` from orchestrator.py. -/
def DETAILED_KEYWORDS : List String :=
  ["detailed", "full", "section", "law", "policy", "regulation",
   "specific", "exact", "precise", "complete", "entire", "all",
   "how does", "what are the", "explain in detail", "step by step"]

/-- Keyword set `QueryAnalyzer.COMPREHENSIVE_KEYWORDS` from orchestrator.py. -/
def COMPREHENSIVE_KEYWORDS : List String :=
  ["comprehensive", "complete analysis", "full document", "everything",
   "entire policy", "all aspects", "thorough", "exhaustive"]

/-- Python's `str.lower()`, modelled character-wise over the string's
characters (ASCII case folding; every keyword the classifier matches
against is plain ASCII). -/
def pyLower (s : String) : String :=
  ⟨s.data.map Char.toLower⟩

/-- Test `charsStartWith needle hay`: holds when `needle` is an initial segment
of `hay`. -/
def charsStartWith : List Char → List Char → Bool
  | [], _ => true
  | _ :: _, [] => false
  | n :: ns, h :: hs => n == h && charsStartWith ns hs

/-- Test `charsOccurs needle hay`: holds when `needle` occurs contiguously
somewhere in `hay`. -/
def charsOccurs (needle : List Char) : List Char → Bool
  | [] => charsStartWith needle []
  | h :: hs => charsStartWith needle (h :: hs) || charsOccurs needle hs

/-- Python's substring test `kw in hay` on strings. -/
def strContains (hay kw : String) : Bool :=
  charsOccurs kw.data hay.data

/-- Count `sum(1 for kw in KEYWORDS if kw in query_lower)`: the number of
keywords of the set that occur as substrings of the (already lowered)
query. Each Python keyword set has pairwise-distinct elements, so the
set-comprehension sum equals this list count. -/
def countMatches (kws : List String) (ql : String) : Nat :=
  (kws.filter (fun kw => strContains ql kw)).length

/-- Classifier `QueryAnalyzer.analyze_query` from orchestrator.py: lower the query,
then test the four keyword sets most-specific-first; the first set with a
positive match count decides the tier, with confidence
`min(cap, base + matches * 0.1)`; with no match at all, default to
`(MODERATE, 0.3)`. Confidences are modelled in `ℚ` (the Python floats
involved are all exact multiples of 1/10 compared via `min`, and the
claims are about ordering and caps, which the `ℚ` model preserves). -/
def analyze_query (query : String) : QueryComplexity × ℚ :=
  if 0 < countMatches COMPREHENSIVE_KEYWORDS (pyLower query) then
    (.comprehensive,
      min (9/10) (6/10 + (countMatches COMPREHENSIVE_KEYWORDS (pyLower query) : ℚ) * (1/10)))
  else if 0 < countMatches DETAILED_KEYWORDS (pyLower query) then
    (.detailed,
      min (9/10) (5/10 + (countMatches DETAILED_KEYWORDS (pyLower query) : ℚ) * (1/10)))
  else if 0 < countMatches MODERATE_KEYWORDS (pyLower query) then
    (.moderate,
      min (8/10) (4/10 + (countMatches MODERATE_KEYWORDS (pyLower query) : ℚ) * (1/10)))
  else if 0 < countMatches SIMPLE_KEYWORDS (pyLower query) then
    (.simple,
      min (8/10) (3/10 + (countMatches SIMPLE_KEYWORDS (pyLower query) : ℚ) * (1/10)))
  else (.moderate, 3/10)

/-- The per-tier confidence formula of `analyze_query`, as a function of
the number of matched keywords in that tier's set. -/
def tierConfidence : QueryComplexity → Nat → ℚ
  | .comprehensive, m => min (9/10) (6/10 + (m : ℚ) * (1/10))
  | .detailed, m => min (9/10) (5/10 + (m : ℚ) * (1/10))
  | .moderate, m => min (8/10) (4/10 + (m : ℚ) * (1/10))
  | .simple, m => min (8/10) (3/10 + (m : ℚ) * (1/10))

/-- The keyword set examined for each tier. -/
def keywordsOf : QueryComplexity → List String
  | .comprehensive => COMPREHENSIVE_KEYWORDS
  | .detailed => DETAILED_KEYWORDS
  | .moderate => MODERATE_KEYWORDS
  | .simple => SIMPLE_KEYWORDS

/-- Routing table `IntelligentRouter.select_primary_server` from orchestrator.py. -/
def select_primary_server : QueryComplexity → String
  | .simple => "server3"
  | .moderate => "server2"
  | .detailed => "server1"
  | .comprehensive => "server1"

/-- Fallback chains `IntelligentRouter.get_fallback_servers` from orchestrator.py:
`fallback_map.get(primary_server, ["server1"])`. -/
def get_fallback_servers (primary_server : String) : List String :=
  if primary_server = "server1" then ["server2", "server3"]
  else if primary_server = "server2" then ["server1", "server3"]
  else if primary_server = "server3" then ["server2", "server1"]
  else ["server1"]

/-- The routing provenance attached to a successful `route_query` result
(`result["routing_info"]` in orchestrator.py). `fallback_server` and
`fallback_reason` are `none` exactly when the keys are absent from the
Python dict (the primary-success path). -/
structure RoutingInfo where
  primary_server : String
  complexity : QueryComplexity
  confidence : ℚ
  fallback_used : Bool
  fallback_server : Option String := none
  fallback_reason : Option String := none
deriving DecidableEq, Repr

/-- Outcome of one `route_query` call: a successful response carrying its
routing info, or a raised exception carrying its message. For a total
failure the raised `HTTPException` detail string is the message. -/
inductive RouteResult where
  | ok (info : RoutingInfo)
  | error (detail : String)
deriving DecidableEq, Repr

/-- The behaviour of the three downstream servers during one route call:
for each server name, `query_server` either returns a response (`.ok`, the
response payload itself is irrelevant to routing) or raises an exception
whose message is the carried string (`.error`). -/
def QueryWorld : Type := String → Except String Unit

/-- The fallback loop of `IntelligentRouter.route_query` (the
`for fallback_server in fallback_servers` loop): try each fallback in
order, keeping `last_error`; on first success return the response with
fallback routing info; if the list is exhausted raise the aggregate
`HTTPException` whose detail interpolates only the last error. The
returned list is the ordered record of servers queried (appended to the
servers already attempted). -/
def route_fallbacks (world : QueryWorld) (primary_server : String)
    (complexity : QueryComplexity) (confidence : ℚ) :
    List String → String → List String → RouteResult × List String
  | [], last_error, attempted =>
      (.error ("All servers failed. Last error: " ++ last_error), attempted)
  | fb :: rest, last_error, attempted =>
      match world fb with
      | .ok _ =>
          (.ok { primary_server := primary_server, complexity := complexity,
                 confidence := confidence, fallback_used := true,
                 fallback_server := some fb, fallback_reason := some last_error },
           attempted ++ [fb])
      | .error e => route_fallbacks world primary_server complexity confidence
          rest e (attempted ++ [fb])

/-- Router `IntelligentRouter.route_query` from orchestrator.py: classify the
question, pick the primary server, query it; on success return with
`fallback_used=False`; on failure re-raise when `use_fallback` is false,
otherwise walk the fallback chain. Alongside the result we return the
ordered list of servers actually queried in this call. -/
def route_query (world : QueryWorld) (question : String)
    (use_fallback : Bool) : RouteResult × List String :=
  match world (select_primary_server (analyze_query question).1) with
  | .ok _ =>
      (.ok { primary_server := select_primary_server (analyze_query question).1,
             complexity := (analyze_query question).1,
             confidence := (analyze_query question).2,
             fallback_used := false },
       [select_primary_server (analyze_query question).1])
  | .error e =>
      if use_fallback then
        route_fallbacks world (select_primary_server (analyze_query question).1)
          (analyze_query question).1 (analyze_query question).2
          (get_fallback_servers (select_primary_server (analyze_query question).1))
          e [select_primary_server (analyze_query question).1]
      else (.error e, [select_primary_server (analyze_query question).1])

/-- The JSON body fields of a stage response that `app.py`'s `ingest`
reads from the stage-1 response via `data1.get(key, 0)`; a field absent
from the body is `none` and defaults to `0` at the read. -/
structure StageBody where
  files_processed : Option Nat := none
  chunks_added : Option Nat := none
  vectors : Option Nat := none
deriving DecidableEq, Repr

/-- The observable outcome of one `client.post(...)` stage call in
`app.py`: either the HTTP client raises (connection error, timeout, ...)
with a message, or the server responds with some HTTP status code and a
JSON body. `app.py` never calls `raise_for_status` on these responses, so
an error status is still a `responded` outcome. -/
inductive CallOutcome where
  | raised (msg : String)
  | responded (status : Nat) (body : StageBody)
deriving DecidableEq, Repr

/-- One run's downstream behaviour for the three pipeline stage calls
made by `app.py`'s `/ingest`: `s1` is `POST server1/ingest`, `s2` is
`POST server2/summarize_l1`, `s3` is `POST server3/summarize_l2`. -/
structure PipelineWorld where
  s1 : CallOutcome
  s2 : CallOutcome
  s3 : CallOutcome
deriving DecidableEq, Repr

/-- Names for the three pipeline stages, used to record which stage
calls a run actually issued. -/
inductive StageTag where
  | ingestStage
  | sumL1
  | sumL2
deriving DecidableEq, Repr

/-- The response model of `app.py`'s `/ingest` endpoint
(`IngestResponse`): stage-1 counts plus a fixed message; it has no
per-stage outcome fields. -/
structure IngestResponse where
  files_processed : Nat
  chunks_added : Nat
  vectors : Nat
  message : String
deriving DecidableEq, Repr

/-- Coordinator endpoint `/ingest` of `app.py`: POST the three stage calls strictly in
order. A raised client exception propagates out of the handler unchanged
(`.error msg`), skipping the remaining stage calls; a `responded` outcome
of any HTTP status is accepted silently and the next stage call is made.
On three responses the endpoint returns stage-1's counts (defaulting
absent fields to 0) and the fixed completion message. The second
component records, in order, the stage calls actually issued. -/
def app_ingest (w : PipelineWorld) : Except String IngestResponse × List StageTag :=
  match w.s1 with
  | .raised m => (.error m, [.ingestStage])
  | .responded _ data1 =>
      match w.s2 with
      | .raised m => (.error m, [.ingestStage, .sumL1])
      | .responded _ _ =>
          match w.s3 with
          | .raised m => (.error m, [.ingestStage, .sumL1, .sumL2])
          | .responded _ _ =>
              (.ok { files_processed := data1.files_processed.getD 0,
                     chunks_added := data1.chunks_added.getD 0,
                     vectors := data1.vectors.getD 0,
                     message := "Ingestion + L1, L2, L3 summaries complete" },
               [.ingestStage, .sumL1, .sumL2])

/-- Stage handler `/summarize_l1` of `server2.py`, restricted to its dependency
check: when the L1 summary file is absent it raises
`HTTPException(404, "No L1 summary found. Run Server1 first.")`, which the
handler's own `except Exception` block converts to a 500 response whose
detail wraps the original message. When the artifact exists the handler
proceeds (summarization and indexing are external collaborators; the
success path is abstracted to its 200 status). Result is
`(http status, detail)`. -/
def server2_summarize_l1 (l1Exists : Bool) : Nat × String :=
  if l1Exists then (200, "ok")
  else (500, "L2 summarization failed: 404: No L1 summary found. Run Server1 first.")

/-- Manual trigger `/summarize_l1` of `app.py`: unconditionally POSTs to
`server2/summarize_l1` and returns that response's JSON verbatim. The
second component counts the network calls made to the tier-2 node. -/
def app_summarize_l1 (l1Exists : Bool) : (Nat × String) × Nat :=
  (server2_summarize_l1 l1Exists, 1)

/-- The orchestrator's `/health` aggregate from orchestrator.py, as a
function of the snapshot of per-server reachability:
`"healthy" if healthy_servers > 0 else "degraded"`. -/
def orchestrator_health_status (reach : List Bool) : String :=
  if 0 < (reach.filter (fun b => b)).length then "healthy" else "degraded"

/-- Aggregate `overall_health` of `SystemManager.get_system_status` from
manage_system.py, as a function of the snapshot of per-server
reachability: `healthy` when every server counts as healthy, `degraded`
when at least one but not all do, `unhealthy` otherwise. -/
def get_system_status_overall (reach : List Bool) : String :=
  let healthy_count := (reach.filter (fun b => b)).length
  let total_count := reach.length
  if healthy_count = total_count then "healthy"
  else if 0 < healthy_count then "degraded"
  else "unhealthy"

/-- A pipeline stage call failed when the client raised, or when the
server responded with an HTTP failure status (>= 400). `app.py` never
calls `raise_for_status` on stage responses, so the second kind of
failure raises nothing. -/
def stageFails : CallOutcome → Bool
  | .raised _ => true
  | .responded status _ => 400 ≤ status

/-! ### Classifier lemmas -/

theorem analyze_query_comp (q : String)
    (h : 0 < countMatches COMPREHENSIVE_KEYWORDS (pyLower q)) :
    analyze_query q =
      (.comprehensive,
        tierConfidence .comprehensive (countMatches COMPREHENSIVE_KEYWORDS (pyLower q))) := by
  unfold analyze_query
  rw [if_pos h]
  rfl

theorem analyze_query_det (q : String)
    (h0 : countMatches COMPREHENSIVE_KEYWORDS (pyLower q) = 0)
    (h : 0 < countMatches DETAILED_KEYWORDS (pyLower q)) :
    analyze_query q =
      (.detailed,
        tierConfidence .detailed (countMatches DETAILED_KEYWORDS (pyLower q))) := by
  unfold analyze_query
  rw [if_neg (by omega), if_pos h]
  rfl

theorem analyze_query_mod (q : String)
    (h0 : countMatches COMPREHENSIVE_KEYWORDS (pyLower q) = 0)
    (h1 : countMatches DETAILED_KEYWORDS (pyLower q) = 0)
    (h : 0 < countMatches MODERATE_KEYWORDS (pyLower q)) :
    analyze_query q =
      (.moderate,
        tierConfidence .moderate (countMatches MODERATE_KEYWORDS (pyLower q))) := by
  unfold analyze_query
  rw [if_neg (by omega), if_neg (by omega), if_pos h]
  rfl

theorem analyze_query_simp (q : String)
    (h0 : countMatches COMPREHENSIVE_KEYWORDS (pyLower q) = 0)
    (h1 : countMatches DETAILED_KEYWORDS (pyLower q) = 0)
    (h2 : countMatches MODERATE_KEYWORDS (pyLower q) = 0)
    (h : 0 < countMatches SIMPLE_KEYWORDS (pyLower q)) :
    analyze_query q =
      (.simple,
        tierConfidence .simple (countMatches SIMPLE_KEYWORDS (pyLower q))) := by
  unfold analyze_query
  rw [if_neg (by omega), if_neg (by omega), if_neg (by omega), if_pos h]
  rfl

theorem analyze_query_default (q : String)
    (h0 : countMatches COMPREHENSIVE_KEYWORDS (pyLower q) = 0)
    (h1 : countMatches DETAILED_KEYWORDS (pyLower q) = 0)
    (h2 : countMatches MODERATE_KEYWORDS (pyLower q) = 0)
    (h3 : countMatches SIMPLE_KEYWORDS (pyLower q) = 0) :
    analyze_query q = (.moderate, 3/10) := by
  unfold analyze_query
  rw [if_neg (by omega), if_neg (by omega), if_neg (by omega), if_neg (by omega)]

/-- Any genuine keyword match yields confidence at least 2/5. -/
theorem matched_conf_lb (q : String)
    (h : 0 < countMatches COMPREHENSIVE_KEYWORDS (pyLower q) ∨
         0 < countMatches DETAILED_KEYWORDS (pyLower q) ∨
         0 < countMatches MODERATE_KEYWORDS (pyLower q) ∨
         0 < countMatches SIMPLE_KEYWORDS (pyLower q)) :
    2/5 ≤ (analyze_query q).2 := by
  by_cases hC : 0 < countMatches COMPREHENSIVE_KEYWORDS (pyLower q)
  · rw [analyze_query_comp q hC]
    have : (0:ℚ) ≤ (countMatches COMPREHENSIVE_KEYWORDS (pyLower q) : ℚ) * (1/10) := by
      positivity
    simp only [tierConfidence]
    apply le_min (by norm_num) (by linarith)
  · have hC0 : countMatches COMPREHENSIVE_KEYWORDS (pyLower q) = 0 := by omega
    by_cases hD : 0 < countMatches DETAILED_KEYWORDS (pyLower q)
    · rw [analyze_query_det q hC0 hD]
      have : (0:ℚ) ≤ (countMatches DETAILED_KEYWORDS (pyLower q) : ℚ) * (1/10) := by
        positivity
      simp only [tierConfidence]
      apply le_min (by norm_num) (by linarith)
    · have hD0 : countMatches DETAILED_KEYWORDS (pyLower q) = 0 := by omega
      by_cases hM : 0 < countMatches MODERATE_KEYWORDS (pyLower q)
      · rw [analyze_query_mod q hC0 hD0 hM]
        have : (0:ℚ) ≤ (countMatches MODERATE_KEYWORDS (pyLower q) : ℚ) * (1/10) := by
          positivity
        simp only [tierConfidence]
        apply le_min (by norm_num) (by linarith)
      · have hM0 : countMatches MODERATE_KEYWORDS (pyLower q) = 0 := by omega
        have hS : 0 < countMatches SIMPLE_KEYWORDS (pyLower q) := by
          rcases h with h | h | h | h <;> omega
        rw [analyze_query_simp q hC0 hD0 hM0 hS]
        have : (1:ℚ) ≤ (countMatches SIMPLE_KEYWORDS (pyLower q) : ℚ) := by
          exact_mod_cast hS
        simp only [tierConfidence]
        apply le_min (by norm_num) (by linarith)

/-- C3: the four keyword sets are evaluated most-specific-first
(Comprehensive, Detailed, Moderate, Simple) and the first tier with at
least one case-insensitive substring match wins; in particular a
Comprehensive or Detailed match decides the tier no matter which Simple
or Moderate keywords also appear. -/
theorem claim_C3_specificity_order (q : String) :
    (0 < countMatches COMPREHENSIVE_KEYWORDS (pyLower q) →
      (analyze_query q).1 = .comprehensive) ∧
    (countMatches COMPREHENSIVE_KEYWORDS (pyLower q) = 0 →
      0 < countMatches DETAILED_KEYWORDS (pyLower q) →
      (analyze_query q).1 = .detailed) ∧
    (countMatches COMPREHENSIVE_KEYWORDS (pyLower q) = 0 →
      countMatches DETAILED_KEYWORDS (pyLower q) = 0 →
      0 < countMatches MODERATE_KEYWORDS (pyLower q) →
      (analyze_query q).1 = .moderate) ∧
    (countMatches COMPREHENSIVE_KEYWORDS (pyLower q) = 0 →
      countMatches DETAILED_KEYWORDS (pyLower q) = 0 →
      countMatches MODERATE_KEYWORDS (pyLower q) = 0 →
      0 < countMatches SIMPLE_KEYWORDS (pyLower q) →
      (analyze_query q).1 = .simple) := by
  refine ⟨fun h => ?_, fun h0 h => ?_, fun h0 h1 h => ?_, fun h0 h1 h2 h => ?_⟩
  · rw [analyze_query_comp q h]
  · rw [analyze_query_det q h0 h]
  · rw [analyze_query_mod q h0 h1 h]
  · rw [analyze_query_simp q h0 h1 h2 h]

/-- Witness for C3: "Explain the policy thoroughly in brief" contains the
Comprehensive keyword "thorough" alongside Moderate ("explain"), Detailed
("policy") and Simple ("brief") keywords, and is classified Comprehensive. -/
theorem claim_C3_specificity_order_witness :
    0 < countMatches COMPREHENSIVE_KEYWORDS (pyLower "Explain the policy thoroughly in brief") ∧
    (analyze_query "Explain the policy thoroughly in brief").1 = .comprehensive :=
  ⟨by decide, (claim_C3_specificity_order "Explain the policy thoroughly in brief").1 (by decide)⟩

/-- C6: a question matching none of the four keyword sets is classified
`(Moderate, 0.3)`, and that fixed default confidence is strictly below
the confidence returned for any question with at least one genuine
keyword match; `analyze_query` is a total function (it always returns a
value and cannot raise). -/
theorem claim_C6_default_conf (q : String)
    (h1 : countMatches COMPREHENSIVE_KEYWORDS (pyLower q) = 0)
    (h2 : countMatches DETAILED_KEYWORDS (pyLower q) = 0)
    (h3 : countMatches MODERATE_KEYWORDS (pyLower q) = 0)
    (h4 : countMatches SIMPLE_KEYWORDS (pyLower q) = 0) :
    analyze_query q = (.moderate, 3/10) ∧
    ∀ q' : String,
      (0 < countMatches COMPREHENSIVE_KEYWORDS (pyLower q') ∨
       0 < countMatches DETAILED_KEYWORDS (pyLower q') ∨
       0 < countMatches MODERATE_KEYWORDS (pyLower q') ∨
       0 < countMatches SIMPLE_KEYWORDS (pyLower q')) →
      (analyze_query q).2 < (analyze_query q').2 := by
  have hq := analyze_query_default q h1 h2 h3 h4
  refine ⟨hq, fun q' h => ?_⟩
  have hlb := matched_conf_lb q' h
  rw [hq]
  norm_num
  linarith

/-- Witness for C6: "xyzzy" matches no keyword set and gets the default
`(Moderate, 0.3)`, strictly below the confidence of the keyword-matching
question "give me a brief summary". -/
theorem claim_C6_default_conf_witness :
    analyze_query "xyzzy" = (.moderate, 3/10) ∧
    (analyze_query "xyzzy").2 < (analyze_query "give me a brief summary").2 :=
  ⟨(claim_C6_default_conf "xyzzy" (by decide) (by decide) (by decide) (by decide)).1,
   (claim_C6_default_conf "xyzzy" (by decide) (by decide) (by decide) (by decide)).2
     "give me a brief summary" (Or.inr (Or.inr (Or.inl (by decide))))⟩

/-- C7: within the winning tier the confidence is a monotonically
(weakly) increasing function `tierConfidence` of the number of matched
keywords; every confidence `analyze_query` returns is strictly below 1.0,
so 1.0 is never produced by the classifier; and whenever the winning
tier's keyword set has at least one match, the returned confidence is
exactly `tierConfidence` of that match count. -/
theorem claim_C7_conf_monotone_capped :
    (∀ t (m₁ m₂ : ℕ), m₁ ≤ m₂ → tierConfidence t m₁ ≤ tierConfidence t m₂) ∧
    (∀ q : String, (analyze_query q).2 < 1) ∧
    (∀ q : String,
      0 < countMatches (keywordsOf (analyze_query q).1) (pyLower q) →
      (analyze_query q).2 =
        tierConfidence (analyze_query q).1
          (countMatches (keywordsOf (analyze_query q).1) (pyLower q))) := by
  refine ⟨?_, ?_, ?_⟩
  · intro t m₁ m₂ h
    have hc : (m₁ : ℚ) ≤ (m₂ : ℚ) := by exact_mod_cast h
    cases t <;> simp only [tierConfidence] <;>
      exact min_le_min le_rfl (by linarith)
  · intro q
    by_cases hC : 0 < countMatches COMPREHENSIVE_KEYWORDS (pyLower q)
    · rw [analyze_query_comp q hC]
      exact lt_of_le_of_lt (min_le_left _ _) (by norm_num)
    · have hC0 : countMatches COMPREHENSIVE_KEYWORDS (pyLower q) = 0 := by omega
      by_cases hD : 0 < countMatches DETAILED_KEYWORDS (pyLower q)
      · rw [analyze_query_det q hC0 hD]
        exact lt_of_le_of_lt (min_le_left _ _) (by norm_num)
      · have hD0 : countMatches DETAILED_KEYWORDS (pyLower q) = 0 := by omega
        by_cases hM : 0 < countMatches MODERATE_KEYWORDS (pyLower q)
        · rw [analyze_query_mod q hC0 hD0 hM]
          exact lt_of_le_of_lt (min_le_left _ _) (by norm_num)
        · have hM0 : countMatches MODERATE_KEYWORDS (pyLower q) = 0 := by omega
          by_cases hS : 0 < countMatches SIMPLE_KEYWORDS (pyLower q)
          · rw [analyze_query_simp q hC0 hD0 hM0 hS]
            exact lt_of_le_of_lt (min_le_left _ _) (by norm_num)
          · have hS0 : countMatches SIMPLE_KEYWORDS (pyLower q) = 0 := by omega
            rw [analyze_query_default q hC0 hD0 hM0 hS0]
            norm_num
  · intro q
    by_cases hC : 0 < countMatches COMPREHENSIVE_KEYWORDS (pyLower q)
    · rw [analyze_query_comp q hC]
      intro _
      rfl
    · have hC0 : countMatches COMPREHENSIVE_KEYWORDS (pyLower q) = 0 := by omega
      by_cases hD : 0 < countMatches DETAILED_KEYWORDS (pyLower q)
      · rw [analyze_query_det q hC0 hD]
        intro _
        rfl
      · have hD0 : countMatches DETAILED_KEYWORDS (pyLower q) = 0 := by omega
        by_cases hM : 0 < countMatches MODERATE_KEYWORDS (pyLower q)
        · rw [analyze_query_mod q hC0 hD0 hM]
          intro _
          rfl
        · have hM0 : countMatches MODERATE_KEYWORDS (pyLower q) = 0 := by omega
          by_cases hS : 0 < countMatches SIMPLE_KEYWORDS (pyLower q)
          · rw [analyze_query_simp q hC0 hD0 hM0 hS]
            intro _
            rfl
          · have hS0 : countMatches SIMPLE_KEYWORDS (pyLower q) = 0 := by omega
            rw [analyze_query_default q hC0 hD0 hM0 hS0]
            simp [keywordsOf, hM0]

/-- Witness for C7 at concrete inputs: monotonicity at `1 ≤ 3` in the
Simple tier, the cap on "brief", and the tie-in between the returned
confidence and the winning tier's match count on "brief". -/
theorem claim_C7_conf_monotone_capped_witness :
    tierConfidence .simple 1 ≤ tierConfidence .simple 3 ∧
    (analyze_query "brief").2 < 1 ∧
    (analyze_query "brief").2 =
      tierConfidence (analyze_query "brief").1
        (countMatches (keywordsOf (analyze_query "brief").1) (pyLower "brief")) :=
  ⟨claim_C7_conf_monotone_capped.1 .simple 1 3 (by decide),
   claim_C7_conf_monotone_capped.2.1 "brief",
   claim_C7_conf_monotone_capped.2.2 "brief" (by decide)⟩

/-! ### Router lemmas -/

theorem route_fallbacks_nil (world : QueryWorld) (p : String)
    (t : QueryComplexity) (c : ℚ) (e : String) (att : List String) :
    route_fallbacks world p t c [] e att =
      (.error ("All servers failed. Last error: " ++ e), att) := rfl

theorem route_fallbacks_cons_ok (world : QueryWorld) (p : String)
    (t : QueryComplexity) (c : ℚ) (fb : String) (rest : List String)
    (e : String) (att : List String) (h : world fb = .ok ()) :
    route_fallbacks world p t c (fb :: rest) e att =
      (.ok { primary_server := p, complexity := t, confidence := c,
             fallback_used := true, fallback_server := some fb,
             fallback_reason := some e },
       att ++ [fb]) := by
  simp only [route_fallbacks, h]

theorem route_fallbacks_cons_err (world : QueryWorld) (p : String)
    (t : QueryComplexity) (c : ℚ) (fb : String) (rest : List String)
    (e e' : String) (att : List String) (h : world fb = .error e') :
    route_fallbacks world p t c (fb :: rest) e att =
      route_fallbacks world p t c rest e' (att ++ [fb]) := by
  conv_lhs => rw [route_fallbacks, h]

theorem route_query_primary_ok (world : QueryWorld) (q : String)
    (u : Bool) (h : world (select_primary_server (analyze_query q).1) = .ok ()) :
    route_query world q u =
      (.ok { primary_server := select_primary_server (analyze_query q).1,
             complexity := (analyze_query q).1,
             confidence := (analyze_query q).2,
             fallback_used := false },
       [select_primary_server (analyze_query q).1]) := by
  unfold route_query
  rw [h]

theorem route_query_primary_err (world : QueryWorld) (q : String)
    (u : Bool) (e : String)
    (h : world (select_primary_server (analyze_query q).1) = .error e) :
    route_query world q u =
      if u then
        route_fallbacks world (select_primary_server (analyze_query q).1)
          (analyze_query q).1 (analyze_query q).2
          (get_fallback_servers (select_primary_server (analyze_query q).1))
          e [select_primary_server (analyze_query q).1]
      else (.error e, [select_primary_server (analyze_query q).1]) := by
  unfold route_query
  rw [h]

/-- C10 (implicit): with `use_fallback=False`, a primary failure is
re-raised unchanged and no fallback server is contacted — the only server
queried in the call is the primary. -/
theorem claim_C10_no_fallback_reraise (world : QueryWorld) (q : String)
    (e : String)
    (h : world (select_primary_server (analyze_query q).1) = .error e) :
    route_query world q false =
      (.error e, [select_primary_server (analyze_query q).1]) := by
  rw [route_query_primary_err world q false e h]
  rfl

/-- Witness for C10: with every server failing with "boom" and the
question "hello" (classified Moderate, primary server2), disabling
fallback re-raises "boom" after querying only server2. -/
theorem claim_C10_no_fallback_reraise_witness :
    route_query (fun _ => .error "boom") "hello" false =
      (.error "boom", ["server2"]) :=
  claim_C10_no_fallback_reraise (fun _ => .error "boom") "hello" "boom" rfl

/-- Counterexample to C2: with the question "hello" (primary server2,
fallbacks server1 then server3) and all three servers failing with the
distinct reasons eB, eA, eC, the aggregate failure detail interpolates
only the last reason eC; it mentions neither the other attempted nodes'
specific reasons (eB of the primary, eA of the first fallback) nor any
attempted node id, so it does not list each attempted node with its
failure reason as the claim states. -/
theorem claim_C2_counterexample :
    (route_query
        (fun s => if s = "server1" then .error "eA"
                  else if s = "server2" then .error "eB"
                  else .error "eC")
        "hello" true).1 = .error "All servers failed. Last error: eC" ∧
    strContains "All servers failed. Last error: eC" "eB" = false ∧
    strContains "All servers failed. Last error: eC" "eA" = false ∧
    strContains "All servers failed. Last error: eC" "server2" = false := by
  refine ⟨?_, by decide, by decide, by decide⟩
  rfl

/-- C2 as amended: when the primary and every fallback fail, `route_query`
raises a single `HTTPException` whose detail is
`"All servers failed. Last error: "` followed by the failure reason of the
LAST attempted node only (not an enumeration of each attempted node and
its reason); the attempted order is the primary followed by its fallback
chain, and no node is queried twice; no per-node failure is surfaced
before the chain is exhausted. -/
theorem claim_C2_total_failure_last_error (q : String) (err : String → String) :
    route_query (fun s => .error (err s)) q true =
      (.error ("All servers failed. Last error: " ++
          err ((get_fallback_servers (select_primary_server (analyze_query q).1)).getLastD
            (select_primary_server (analyze_query q).1))),
       select_primary_server (analyze_query q).1 ::
         get_fallback_servers (select_primary_server (analyze_query q).1)) ∧
    (select_primary_server (analyze_query q).1 ::
       get_fallback_servers (select_primary_server (analyze_query q).1)).Nodup := by
  have hp : (fun s => (Except.error (err s) : Except String Unit))
      (select_primary_server (analyze_query q).1) =
      .error (err (select_primary_server (analyze_query q).1)) := rfl
  rw [route_query_primary_err _ q true _ hp, if_pos rfl]
  cases h : (analyze_query q).1 <;> exact ⟨rfl, by decide⟩

/-- Counterexample to C5: question "hello" routes to primary server2 with
fallbacks server1 then server3. With server2 failing with "primary-down",
server1 failing with "fallback1-down" and server3 succeeding, the
successful result records `fallback_reason = "fallback1-down"` — the
failure reason of the intermediate fallback server1, not the primary's
original reason "primary-down" as the claim states. -/
theorem claim_C5_counterexample :
    (route_query
        (fun s => if s = "server3" then .ok ()
                  else if s = "server2" then .error "primary-down"
                  else .error "fallback1-down")
        "hello" true).1 =
      .ok { primary_server := "server2", complexity := .moderate,
            confidence := (analyze_query "hello").2, fallback_used := true,
            fallback_server := some "server3",
            fallback_reason := some "fallback1-down" } ∧
    "fallback1-down" ≠ "primary-down" := by
  exact ⟨rfl, by decide⟩

/-- C5 as amended: when the primary fails, the fallback chain is attempted
sequentially in chain order and iteration stops at the first success; the
result records `fallback_used=true` and the id of the succeeding fallback,
and its `fallback_reason` is the failure reason of the node that failed
immediately before the success — the primary's original reason exactly
when the FIRST fallback succeeds, and the failure reason of the last
failed intermediate fallback otherwise. -/
theorem claim_C5_fallback_success (q : String) (world : QueryWorld)
    (e₀ e₁ f₁ f₂ : String)
    (hchain : get_fallback_servers (select_primary_server (analyze_query q).1) = [f₁, f₂])
    (hp : world (select_primary_server (analyze_query q).1) = .error e₀) :
    (world f₁ = .ok () →
      route_query world q true =
        (.ok { primary_server := select_primary_server (analyze_query q).1,
               complexity := (analyze_query q).1,
               confidence := (analyze_query q).2,
               fallback_used := true, fallback_server := some f₁,
               fallback_reason := some e₀ },
         [select_primary_server (analyze_query q).1, f₁])) ∧
    (world f₁ = .error e₁ → world f₂ = .ok () →
      route_query world q true =
        (.ok { primary_server := select_primary_server (analyze_query q).1,
               complexity := (analyze_query q).1,
               confidence := (analyze_query q).2,
               fallback_used := true, fallback_server := some f₂,
               fallback_reason := some e₁ },
         [select_primary_server (analyze_query q).1, f₁, f₂])) := by
  rw [route_query_primary_err world q true e₀ hp, if_pos rfl, hchain]
  constructor
  · intro h1
    rw [route_fallbacks_cons_ok world _ _ _ _ _ _ _ h1]
    rfl
  · intro h1 h2
    rw [route_fallbacks_cons_err world _ _ _ _ _ _ _ _ h1,
      route_fallbacks_cons_ok world _ _ _ _ _ _ _ h2]
    rfl

/-- Witness for C5 as amended, first-fallback case: question "hello"
(primary server2, first fallback server1); server2 fails with
"primary-down", server1 succeeds, so the result records fallback server1
and the primary's reason. -/
theorem claim_C5_fallback_success_witness :
    route_query
        (fun s => if s = "server2" then .error "primary-down" else .ok ())
        "hello" true =
      (.ok { primary_server := "server2", complexity := .moderate,
             confidence := (analyze_query "hello").2, fallback_used := true,
             fallback_server := some "server1",
             fallback_reason := some "primary-down" },
       ["server2", "server1"]) :=
  (claim_C5_fallback_success "hello"
      (fun s => if s = "server2" then .error "primary-down" else .ok ())
      "primary-down" "x" "server1" "server3" rfl rfl).1 rfl

/-- Counterexample to C9: "Give me the key points" is NOT classified
Simple: "give me" is a Moderate keyword and the Moderate set is evaluated
before the Simple set, so `analyze_query` returns Moderate (and the
primary is therefore the tier-2 node server2, not the tier-3 node). -/
theorem claim_C9_counterexample :
    (analyze_query "Give me the key points").1 = .moderate ∧
    (analyze_query "Give me the key points").1 ≠ .simple ∧
    select_primary_server (analyze_query "Give me the key points").1 ≠ "server3" := by
  exact ⟨by decide, by decide, by decide⟩

/-- C9 as amended: "Give me the key points" is classified Moderate with
confidence 0.5 (its substring "give me" is a Moderate keyword and
Moderate is evaluated before Simple), so its primary is the tier-2 node
server2. A question matching only Simple keywords, such as
"key points please", is classified Simple with primary server3; server2
is first in server3's fallback chain, so when server3 fails and server2
responds, the result has `fallback_used=true` and
`fallback_server=server2`. -/
theorem claim_C9_key_points_routing :
    analyze_query "Give me the key points" = (.moderate, 1/2) ∧
    select_primary_server (analyze_query "Give me the key points").1 = "server2" ∧
    (analyze_query "key points please").1 = .simple ∧
    select_primary_server (analyze_query "key points please").1 = "server3" ∧
    get_fallback_servers "server3" = ["server2", "server1"] ∧
    route_query
        (fun s => if s = "server2" then .ok () else .error "down")
        "key points please" true =
      (.ok { primary_server := "server3", complexity := .simple,
             confidence := (analyze_query "key points please").2,
             fallback_used := true, fallback_server := some "server2",
             fallback_reason := some "down" },
       ["server3", "server2"]) := by
  refine ⟨?_, rfl, by decide, rfl, rfl, rfl⟩
  have hm : countMatches MODERATE_KEYWORDS (pyLower "Give me the key points") = 1 := by
    decide
  rw [analyze_query_mod _ (by decide) (by decide) (by omega), hm]
  norm_num [tierConfidence]

/-- Counterexample to C1: in the run where stage 1 responds with HTTP 500
(a failed stage) and stages 2 and 3 respond 200, the `/ingest` handler
still invokes stages 2 and 3 and returns a plain success response with
the fixed completion message — later stages are not skipped after a
stage-N failure, and the result carries no per-stage outcomes. -/
theorem claim_C1_counterexample :
    stageFails (CallOutcome.responded 500 {}) = true ∧
    app_ingest ⟨.responded 500 {}, .responded 200 {}, .responded 200 {}⟩ =
      (.ok { files_processed := 0, chunks_added := 0, vectors := 0,
             message := "Ingestion + L1, L2, L3 summaries complete" },
       [.ingestStage, .sumL1, .sumL2]) := by
  exact ⟨rfl, rfl⟩

/-- C1 as amended: the `/ingest` coordinator executes the three stages
strictly in order, and a stage call that RAISES aborts the remaining
stages; but the propagated result is that single opaque exception message
(not a per-stage report), a stage response with an HTTP failure status
does not abort later stages, and the success response reports only
stage-1's counts plus a fixed message, with no per-stage outcome
fields. -/
theorem claim_C1_pipeline_order (w : PipelineWorld) :
    (∀ m, w.s1 = .raised m → app_ingest w = (.error m, [.ingestStage])) ∧
    (∀ s₁ b₁ m, w.s1 = .responded s₁ b₁ → w.s2 = .raised m →
      app_ingest w = (.error m, [.ingestStage, .sumL1])) ∧
    (∀ s₁ b₁ s₂ b₂ m, w.s1 = .responded s₁ b₁ → w.s2 = .responded s₂ b₂ →
      w.s3 = .raised m →
      app_ingest w = (.error m, [.ingestStage, .sumL1, .sumL2])) ∧
    (∀ s₁ b₁ s₂ b₂ s₃ b₃, w.s1 = .responded s₁ b₁ → w.s2 = .responded s₂ b₂ →
      w.s3 = .responded s₃ b₃ →
      app_ingest w =
        (.ok { files_processed := b₁.files_processed.getD 0,
               chunks_added := b₁.chunks_added.getD 0,
               vectors := b₁.vectors.getD 0,
               message := "Ingestion + L1, L2, L3 summaries complete" },
         [.ingestStage, .sumL1, .sumL2])) := by
  refine ⟨fun m h1 => ?_, fun s₁ b₁ m h1 h2 => ?_,
    fun s₁ b₁ s₂ b₂ m h1 h2 h3 => ?_, fun s₁ b₁ s₂ b₂ s₃ b₃ h1 h2 h3 => ?_⟩
  · simp only [app_ingest, h1]
  · simp only [app_ingest, h1, h2]
  · simp only [app_ingest, h1, h2, h3]
  · simp only [app_ingest, h1, h2, h3]

/-- Witness for C1 as amended: when the stage-1 call raises "conn
refused", only stage 1 is invoked and the handler propagates exactly that
message. -/
theorem claim_C1_pipeline_order_witness :
    app_ingest ⟨.raised "conn refused", .responded 200 {}, .responded 200 {}⟩ =
      (.error "conn refused", [.ingestStage]) :=
  (claim_C1_pipeline_order
      ⟨.raised "conn refused", .responded 200 {}, .responded 200 {}⟩).1
    "conn refused" rfl

/-- Counterexample to C4: running the gateway's `/summarize_l1` with no
L1 artifact present DOES make a network call to the tier-2 node (exactly
one), and the error that comes back is the tier-2 node's own 500 response
wrapping its 404 dependency check — the coordinator performs no check of
its own and returns no coordinator-side `PipelineDependencyMissing`. -/
theorem claim_C4_counterexample :
    (app_summarize_l1 false).2 = 1 ∧
    (app_summarize_l1 false).2 ≠ 0 ∧
    (app_summarize_l1 false).1 =
      (500, "L2 summarization failed: 404: No L1 summary found. Run Server1 first.") := by
  exact ⟨rfl, by decide, rfl⟩

/-- C4 as amended: the dependency "L1 must exist before summarizeFromL1"
is enforced by the downstream tier-2 node, not the coordinator: the
gateway's `/summarize_l1` unconditionally makes exactly one network call
to the tier-2 node, and when the L1 artifact is missing that node answers
with a 500 whose detail wraps its internal 404
"No L1 summary found. Run Server1 first."; when the artifact exists the
call succeeds with status 200. -/
theorem claim_C4_dependency_check_downstream :
    (app_summarize_l1 false).2 = 1 ∧
    (app_summarize_l1 true).2 = 1 ∧
    (app_summarize_l1 false).1.1 = 500 ∧
    strContains (app_summarize_l1 false).1.2
      "No L1 summary found. Run Server1 first." = true ∧
    (app_summarize_l1 true).1.1 = 200 := by
  exact ⟨rfl, rfl, rfl, by decide, rfl⟩

/-- Counterexample to C8: the orchestrator's `/health` aggregation
reports "healthy" on a snapshot where some but not all nodes are
reachable (the claim requires "degraded"), and "degraded" when none are
reachable (the claim requires "unhealthy"); it can never report
"unhealthy". -/
theorem claim_C8_counterexample :
    orchestrator_health_status [true, false, false] = "healthy" ∧
    orchestrator_health_status [false, false, false] = "degraded" ∧
    ("healthy" : String) ≠ "degraded" ∧
    ("degraded" : String) ≠ "unhealthy" := by
  exact ⟨rfl, rfl, by decide, by decide⟩

/-- C8 as amended: on a non-empty snapshot of per-node reachability,
`SystemManager.get_system_status`'s `overall_health` does satisfy the
claimed trichotomy ("healthy" iff all reachable, "degraded" iff some but
not all, "unhealthy" iff none); the orchestrator's `/health` aggregation
instead reports "healthy" iff at least one node is reachable and
"degraded" iff none are, and never reports "unhealthy". -/
theorem claim_C8_health_trichotomy (reach : List Bool) (h : reach ≠ []) :
    (get_system_status_overall reach = "healthy" ↔ ∀ b ∈ reach, b = true) ∧
    (get_system_status_overall reach = "degraded" ↔
      ((∃ b ∈ reach, b = true) ∧ ∃ b ∈ reach, b = false)) ∧
    (get_system_status_overall reach = "unhealthy" ↔ ∀ b ∈ reach, b = false) ∧
    (orchestrator_health_status reach = "healthy" ↔ ∃ b ∈ reach, b = true) ∧
    (orchestrator_health_status reach = "degraded" ↔ ∀ b ∈ reach, b = false) ∧
    get_system_status_overall reach ≠ "unknown" ∧
    orchestrator_health_status reach ≠ "unhealthy" := by
  have hflen : (reach.filter (fun b => b)).length = reach.countP (fun b => b) :=
    (List.countP_eq_length_filter _ _).symm
  have hall : reach.countP (fun b => b) = reach.length ↔ ∀ b ∈ reach, b = true := by
    simp
  have hpos : 0 < reach.countP (fun b => b) ↔ ∃ b ∈ reach, b = true := by
    simp
  have hle : reach.countP (fun b => b) ≤ reach.length := List.countP_le_length _
  have hnil : 0 < reach.length := List.length_pos.mpr h
  unfold get_system_status_overall orchestrator_health_status
  rw [hflen]
  by_cases hA : ∀ b ∈ reach, b = true
  · have hkA : reach.countP (fun b => b) = reach.length := hall.mpr hA
    have hEx : ∃ b ∈ reach, b = true := by
      obtain ⟨a, ha⟩ := List.exists_mem_of_ne_nil reach h
      exact ⟨a, ha, hA a ha⟩
    have hNoF : ¬ ((∃ b ∈ reach, b = true) ∧ ∃ b ∈ reach, b = false) := by
      rintro ⟨-, b, hb, hbf⟩
      have := hA b hb
      simp [hbf] at this
    have hNotAllF : ¬ ∀ b ∈ reach, b = false := by
      intro hAllF
      obtain ⟨a, ha, hat⟩ := hEx
      have := hAllF a ha
      simp [hat] at this
    rw [if_pos hkA, if_pos (hpos.mpr hEx)]
    exact ⟨iff_of_true rfl hA, iff_of_false (by decide) hNoF,
      iff_of_false (by decide) hNotAllF, iff_of_true rfl hEx,
      iff_of_false (by decide) hNotAllF, by decide, by decide⟩
  · have hkA : reach.countP (fun b => b) ≠ reach.length := fun hc => hA (hall.mp hc)
    have hExF : ∃ b ∈ reach, b = false := by
      push_neg at hA
      obtain ⟨b, hb, hbt⟩ := hA
      exact ⟨b, hb, by simpa using hbt⟩
    by_cases hE : ∃ b ∈ reach, b = true
    · have hNotAllF : ¬ ∀ b ∈ reach, b = false := by
        intro hAllF
        obtain ⟨a, ha, hat⟩ := hE
        have := hAllF a ha
        simp [hat] at this
      rw [if_neg hkA, if_pos (hpos.mpr hE), if_pos (hpos.mpr hE)]
      exact ⟨iff_of_false (by decide) hA, iff_of_true rfl ⟨hE, hExF⟩,
        iff_of_false (by decide) hNotAllF, iff_of_true rfl hE,
        iff_of_false (by decide) hNotAllF, by decide, by decide⟩
    · have hAllF : ∀ b ∈ reach, b = false := by
        intro b hb
        rcases Bool.eq_false_or_eq_true b with hf | ht
        · exact absurd ⟨b, hb, hf⟩ hE
        · exact ht
      have hk0 : ¬ 0 < reach.countP (fun b => b) := fun hc => hE (hpos.mp hc)
      rw [if_neg hkA, if_neg hk0, if_neg hk0]
      exact ⟨iff_of_false (by decide) hA,
        iff_of_false (by decide) (fun hc => hE hc.1),
        iff_of_true rfl hAllF, iff_of_false (by decide) hE,
        iff_of_true rfl hAllF, by decide, by decide⟩

/-- Witness for C8 as amended at the snapshot `[true, false, false]`
(some but not all reachable): `overall_health` is "degraded" while the
orchestrator's aggregate is "healthy". -/
theorem claim_C8_health_trichotomy_witness :
    get_system_status_overall [true, false, false] = "degraded" ∧
    orchestrator_health_status [true, false, false] = "healthy" :=
  ⟨(claim_C8_health_trichotomy [true, false, false] (by decide)).2.1.mpr
      ⟨⟨true, by decide, rfl⟩, ⟨false, by simp, rfl⟩⟩,
   (claim_C8_health_trichotomy [true, false, false] (by decide)).2.2.2.1.mpr
      ⟨true, by decide, rfl⟩⟩

end GenAI
